import Mathlib

/-!
Verification of the training-run orchestrator of the CS-recommendation-system
repository (src/backend/model_training_api.py, src/backend/database.py).

The Python code is shallowly embedded: timestamps are integer seconds
(`datetime` subtraction and formatting only ever uses whole seconds here),
SQLAlchemy tables are lists of records, and numeric metric values parsed from
subprocess output are represented exactly in decimal fixed-point form (the
code only stores and moves these values; it never computes with them, so the
carrier of the value does not affect any property proved below).
-/

namespace CSRec

/-- Integer floor division, the semantics of the Python `//` operator. -/
def pydiv (a b : Int) : Int := Int.fdiv a b

/-- Integer remainder paired with floor division, the semantics of Python `%`
(for a positive divisor the result is in `[0, b)`). -/
def pymod (a b : Int) : Int := Int.fmod a b

/-- Exact decimal representation of a Python float as it occurs in this
program: `mantissa / 10 ^ fracDigits`.  Every float handled by the
orchestrator is either a decimal literal (request defaults, schedule
columns) or is parsed from a decimal digit string in the subprocess output;
the orchestrator only stores and moves these values and never computes with
them, so this exact carrier is a faithful stand-in for the IEEE double. -/
structure PyFloat where
  mantissa : Int
  fracDigits : Nat
deriving DecidableEq

/-- Python truthiness of a float: zero is falsy. -/
def PyFloat.isTruthy (v : PyFloat) : Bool := !(v.mantissa == 0)

/-- The float 1.0, used as a sample value. -/
def pyFloatOne : PyFloat := { mantissa := 1, fracDigits := 0 }

/-- String built by the non-`None` paths of `calculate_duration`
(model_training_api.py lines 130-148): the nonzero units among
days/hours/minutes joined with spaces, "0m" when all are zero. -/
def formatDurationSeconds (total_seconds : Int) : String :=
  let days := pydiv total_seconds 86400
  let hours := pydiv (pymod total_seconds 86400) 3600
  let minutes := pydiv (pymod total_seconds 3600) 60
  let parts : List String :=
    (if days > 0 then [toString days ++ "d"] else []) ++
    (if hours > 0 then [toString hours ++ "h"] else []) ++
    (if minutes > 0 then [toString minutes ++ "m"] else [])
  if parts.isEmpty then "0m" else String.intercalate " " parts

/-- Embedding of `calculate_duration` (model_training_api.py lines 125-148).
Timestamps are whole seconds, so `int(delta.total_seconds())` is exactly
`end - start`.  A `None` end time yields `None`; every other path returns a
string. -/
def calculate_duration (start_time : Int) (end_time : Option Int) : Option String :=
  match end_time with
  | none => none
  | some e => some (formatDurationSeconds (e - start_time))

/-- Embedding of the `ModelRun` table row (database.py lines 68-93).
`start_time` is a non-nullable column; `end_time`, `duration`, `logs` and the
four hyperparameter columns are nullable. -/
structure ModelRun where
  id : String
  run_id : String
  status : String
  start_time : Int
  end_time : Option Int
  duration : Option String
  triggered_by : String
  logs : Option String
  rank : Option Int
  regParam : Option PyFloat
  alpha : Option PyFloat
  maxIter : Option Int
deriving DecidableEq

/-- A run is active when its status is in `{"running", "queued"}`, the filter
`ModelRun.status.in_(["running", "queued"])` of model_training_api.py line 384. -/
def isActiveStatus (s : String) : Bool := s == "running" || s == "queued"

/-- Number of non-terminal (queued or running) runs in a store state. -/
def countActive (db : List ModelRun) : Nat := db.countP (fun r => isActiveStatus r.status)

/-- Pre-emption log line appended by `trigger_manual_run`
(model_training_api.py line 393). -/
def preemptionNotice : String := "\n⚠️ Run cancelled: A new run was triggered.\n"

/-- Embedding of the per-run pre-emption update of `trigger_manual_run`
(model_training_api.py lines 388-394): status set to cancelled, end time
stamped, duration computed (the `if existing_run.start_time:` guard is always
taken, since `start_time` is a non-nullable datetime column and every datetime
is truthy in Python), and the cancellation notice appended to the logs. -/
def cancelRun (now : Int) (r : ModelRun) : ModelRun :=
  { r with
      status := "cancelled"
      end_time := some now
      duration := calculate_duration r.start_time (some now)
      logs := some (r.logs.getD "" ++ preemptionNotice) }

/-- Embedding of the pre-emption pass of `trigger_manual_run`
(model_training_api.py lines 382-397): every run whose status is running or
queued is cancelled; the resulting list is the store state committed by the
`db.commit()` on line 396, before the new run is inserted. -/
def preemptActive (now : Int) (db : List ModelRun) : List ModelRun :=
  db.map (fun r => if isActiveStatus r.status then cancelRun now r else r)

/-- Embedding of the new run record built by `trigger_manual_run`
(model_training_api.py lines 434-447). -/
def newRunRecord (uuid runId trig : String) (now : Int)
    (rank : Int) (regParam alpha : PyFloat) (maxIter : Int) : ModelRun :=
  { id := uuid
    run_id := runId
    status := "queued"
    start_time := now
    end_time := none
    duration := none
    triggered_by := trig
    logs := none
    rank := some rank
    regParam := some regParam
    alpha := some alpha
    maxIter := some maxIter }

/-- Observable store states produced by `trigger_manual_run`: the state
committed after the pre-emption pass (line 396) and the final state committed
after the insert of the new queued run (lines 449-450). -/
def triggerStates (db : List ModelRun) (now : Int) (uuid runId trig : String)
    (rank : Int) (regParam alpha : PyFloat) (maxIter : Int) :
    List ModelRun × List ModelRun :=
  let afterPreempt := preemptActive now db
  (afterPreempt, afterPreempt ++ [newRunRecord uuid runId trig now rank regParam alpha maxIter])

/-- Sample store rows used by concrete witnesses. -/
def sampleRunningRun : ModelRun :=
  { id := "a", run_id := "manual__2025-01-01T00:00:00", status := "running",
    start_time := 0, end_time := none, duration := none, triggered_by := "manual",
    logs := none, rank := some 10, regParam := some pyFloatOne,
    alpha := some pyFloatOne, maxIter := some 10 }

def sampleQueuedRun : ModelRun :=
  { sampleRunningRun with id := "b", run_id := "manual__2025-01-01T00:00:01", status := "queued" }

/-- Python `str.upper` restricted to the ASCII range, which covers every
`order` value the comparison on model_training_api.py line 286 can
distinguish. -/
def pyUpper (s : String) : String := String.mk (s.data.map Char.toUpper)

inductive SortChoice
  | asc
  | desc
deriving DecidableEq

/-- Embedding of the sorting dispatch of `get_all_model_runs`
(model_training_api.py lines 284-291): only the field name "start_time" is
recognised, order "ASC" (case-insensitively) selects ascending, everything
else descending. -/
def chooseSort (sort ord : String) : SortChoice :=
  if sort = "start_time" then
    (if pyUpper ord = "ASC" then SortChoice.asc else SortChoice.desc)
  else SortChoice.desc

/-- List ordering applied by the query: stable sort on the `start_time`
column in the chosen direction. -/
def sortRunsByStart (choice : SortChoice) (runs : List ModelRun) : List ModelRun :=
  match choice with
  | SortChoice.asc => runs.mergeSort (fun a b => decide (a.start_time ≤ b.start_time))
  | SortChoice.desc => runs.mergeSort (fun a b => decide (b.start_time ≤ a.start_time))

def applySorting (sort ord : String) (runs : List ModelRun) : List ModelRun :=
  sortRunsByStart (chooseSort sort ord) runs

/-- Structured error payload raised through `HTTPException` in
model_training_api.py. -/
structure ApiError where
  code : String
  message : String
deriving DecidableEq

/-- Statuses accepted by the filter validation of `get_all_model_runs`
(model_training_api.py line 259).  Note the list has four entries; the
`RunStatus` enum of lines 24-29 has five. -/
def statusWhitelist : List String := ["success", "failed", "running", "queued"]

def invalidStatusError : ApiError :=
  { code := "VALIDATION_ERROR",
    message := "Invalid status value. Must be one of: success, failed, running, queued" }

def invalidTriggeredByError : ApiError :=
  { code := "VALIDATION_ERROR",
    message := "Invalid triggered_by value. Must be one of: manual, scheduled" }

/-- Status-filter step of `get_all_model_runs` (model_training_api.py
lines 258-269). -/
def filterByStatus (db : List ModelRun) : Option String → Except ApiError (List ModelRun)
  | none => Except.ok db
  | some s =>
    if s ∈ statusWhitelist then Except.ok (db.filter (fun r => r.status == s))
    else Except.error invalidStatusError

/-- Trigger-source-filter step of `get_all_model_runs`
(model_training_api.py lines 271-282). -/
def filterByTrigger (db : List ModelRun) : Option String → Except ApiError (List ModelRun)
  | none => Except.ok db
  | some t =>
    if t ∈ ["manual", "scheduled"] then Except.ok (db.filter (fun r => r.triggered_by == t))
    else Except.error invalidTriggeredByError

/-- Sequential composition of the two filter validations of
`get_all_model_runs` (model_training_api.py lines 255-282). -/
def validateAndFilter (db : List ModelRun) (status_q triggered_by_q : Option String) :
    Except ApiError (List ModelRun) :=
  match filterByStatus db status_q with
  | Except.error e => Except.error e
  | Except.ok q => filterByTrigger q triggered_by_q

/-- Embedding of `get_all_model_runs` (model_training_api.py lines 244-298):
validate and apply the two filters, order by start time, count the filtered
rows, and page with `offset = (page-1)*limit`.  The result is the page of
rows plus the total count. -/
def get_all_model_runs (db : List ModelRun) (status_q triggered_by_q : Option String)
    (page limit : Nat) (sort ord : String) : Except ApiError (List ModelRun × Nat) :=
  match validateAndFilter db status_q triggered_by_q with
  | Except.error e => Except.error e
  | Except.ok q =>
    let sorted := applySorting sort ord q
    let total := q.length
    let data := (sorted.drop ((page - 1) * limit)).take limit
    Except.ok (data, total)

def sampleCancelledRun : ModelRun :=
  { sampleRunningRun with id := "d", status := "cancelled" }

/-- Tri-state of a JSON field in a request body: absent from the payload,
explicit null, or a value.  Pydantic replaces an absent field by the model
default and passes an explicit null through as `None`. -/
inductive PyField (α : Type)
  | absent
  | null
  | val (a : α)

def pyFieldResolve {α : Type} (dflt : Option α) : PyField α → Option α
  | PyField.absent => dflt
  | PyField.null => none
  | PyField.val a => some a

/-- Raw trigger request body, before Pydantic validation. -/
structure ModelRunCreateInput where
  triggered_by : String
  rank : PyField Int
  regParam : PyField PyFloat
  alpha : PyField PyFloat
  maxIter : PyField Int

/-- Validated `ModelRunCreate` request model (model_training_api.py
lines 51-57). -/
structure ModelRunCreate where
  triggered_by : String
  rank : Option Int
  regParam : Option PyFloat
  alpha : Option PyFloat
  maxIter : Option Int

/-- Pydantic validation of `ModelRunCreate`: each hyperparameter field is
declared `Optional` with the non-null defaults `Field(10)`, `Field(0.01)`,
`Field(1.0)`, `Field(10)`, so an absent field arrives as that default and
only an explicit JSON null arrives as `None`. -/
def mkModelRunCreate (inp : ModelRunCreateInput) : ModelRunCreate :=
  { triggered_by := inp.triggered_by
    rank := pyFieldResolve (some 10) inp.rank
    regParam := pyFieldResolve (some { mantissa := 1, fracDigits := 2 }) inp.regParam
    alpha := pyFieldResolve (some { mantissa := 1, fracDigits := 0 }) inp.alpha
    maxIter := pyFieldResolve (some 10) inp.maxIter }

/-- Hyperparameter columns of the `TrainingSchedule` row read by
`trigger_manual_run` (database.py lines 96-109). -/
structure TrainingSchedule where
  rank : Option Int
  regParam : Option PyFloat
  alpha : Option PyFloat
  maxIter : Option Int

/-- Python `a if a is not None else b` (model_training_api.py lines 409-412). -/
def ifNotNone {α : Type} (a b : Option α) : Option α :=
  match a with
  | some v => some v
  | none => b

/-- Python `x or d` for an optional integer: `None` and `0` are both falsy
and select the default (model_training_api.py lines 415-418). -/
def pyOrInt (x : Option Int) (d : Int) : Int :=
  match x with
  | none => d
  | some v => if v = 0 then d else v

/-- Python `x or d` for an optional float: `None` and `0.0` are both falsy
and select the default (model_training_api.py lines 415-418). -/
def pyOrFloat (x : Option PyFloat) (d : PyFloat) : PyFloat :=
  match x with
  | none => d
  | some v => if v.isTruthy then v else d

/-- Embedding of the hyperparameter resolution of `trigger_manual_run`
(model_training_api.py lines 399-418): start from the validated request
fields; when the trigger source is "scheduled" and a schedule row exists,
fill fields that are `None` from the schedule; finally apply `or`-defaults. -/
def resolveHyperparameters (request : ModelRunCreate)
    (schedule : Option TrainingSchedule) : Int × PyFloat × PyFloat × Int :=
  let rank := request.rank
  let regParam := request.regParam
  let alpha := request.alpha
  let maxIter := request.maxIter
  let resolved :=
    if request.triggered_by = "scheduled" then
      match schedule with
      | some sch =>
        (ifNotNone rank sch.rank, ifNotNone regParam sch.regParam,
          ifNotNone alpha sch.alpha, ifNotNone maxIter sch.maxIter)
      | none => (rank, regParam, alpha, maxIter)
    else (rank, regParam, alpha, maxIter)
  (pyOrInt resolved.1 10, pyOrFloat resolved.2.1 { mantissa := 1, fracDigits := 2 },
    pyOrFloat resolved.2.2.1 { mantissa := 1, fracDigits := 0 }, pyOrInt resolved.2.2.2 10)

/-- Embedding of `generate_run_id` (model_training_api.py lines 151-154);
the UTC timestamp string, formatted to second precision, is supplied by the
caller. -/
def generate_run_id (triggered_by timestamp : String) : String :=
  triggered_by ++ "__" ++ timestamp

/-- Alias candidate with collision counter suffix
(model_training_api.py line 429). -/
def suffixed (base : String) (counter : Nat) : String :=
  base ++ "_" ++ toString counter

/-- Embedding of the collision loop of `trigger_manual_run`
(model_training_api.py lines 426-431).  The Python loop `while existing_run
and counter < 100` starts at counter 1 and executes its body at most while
counter is below 100, so at most 99 iterations run; `fuel` counts the
iterations the `counter < 100` bound still allows.  `collides` mirrors the
truthiness of `existing_run`, the store lookup of the current candidate. -/
def collisionLoop (existing : List String) (base : String) :
    Nat → Nat → String → Bool → String
  | _, 0, run_id, _ => run_id
  | counter, fuel + 1, run_id, collides =>
    if collides then
      collisionLoop existing base (counter + 1) fuel (suffixed base counter)
        (decide (suffixed base counter ∈ existing))
    else run_id

/-- Embedding of the alias generation and collision handling of
`trigger_manual_run` (model_training_api.py lines 420-431): the base alias
is used directly when free; otherwise suffixed candidates are tried. -/
def resolveRunId (existing : List String) (base : String) : String :=
  if base ∈ existing then collisionLoop existing base 1 99 base true else base

/-- Store in which the base alias and all 99 suffixed candidates are taken. -/
def exhaustedStore : List String :=
  "b" :: (List.range 99).map (fun i => suffixed "b" (i + 1))

/-- Character class `\d` of the metric regexes (ASCII digits, as emitted by
the training script). -/
def isDigitChar (c : Char) : Bool := c.isDigit

/-- Character class `[\d.]` of the metric regexes. -/
def isDigitDot (c : Char) : Bool := c.isDigit || c == '.'

/-- Match a literal fragment of a regex at the head of `s`, returning the
rest of the input on success. -/
def stripLit : List Char → List Char → Option (List Char)
  | [], s => some s
  | _ :: _, [] => none
  | l :: lit, c :: s => if l == c then stripLit lit s else none

/-- Match a nonempty greedy run of characters of class `p` at the head of
`s`, the regex groups `(\d+)` and `([\d.]+)`.  In both metric patterns every
group is followed by a literal character its class can never match, so
greedy matching without backtracking coincides with the regex semantics. -/
def takeGroup (p : Char → Bool) (s : List Char) : Option (List Char × List Char) :=
  let g := s.takeWhile p
  if g.isEmpty then none else some (g, s.drop g.length)

/-- Raw capture groups of the structured metric regex of
model_training_api.py line 643. -/
structure StructuredRaw where
  k : List Char
  precision : List Char
  «recall» : List Char
  map : List Char
  ndcg : List Char
  coverage : List Char
  hitRate : List Char
deriving DecidableEq

/-- Match the structured pattern
`METRIC\|k=(\d+)\|precision=([\d.]+)\|recall=([\d.]+)\|map=([\d.]+)\|ndcg=([\d.]+)\|coverage=([\d.]+)\|hitRate=([\d.]+)`
at the start of `s` (model_training_api.py line 643). -/
def matchStructuredAt (s : List Char) : Option StructuredRaw :=
  (stripLit ("METRIC|k=").toList s).bind fun s1 =>
  (takeGroup isDigitChar s1).bind fun (kg, s2) =>
  (stripLit ("|precision=").toList s2).bind fun s3 =>
  (takeGroup isDigitDot s3).bind fun (pg, s4) =>
  (stripLit ("|recall=").toList s4).bind fun s5 =>
  (takeGroup isDigitDot s5).bind fun (rg, s6) =>
  (stripLit ("|map=").toList s6).bind fun s7 =>
  (takeGroup isDigitDot s7).bind fun (mg, s8) =>
  (stripLit ("|ndcg=").toList s8).bind fun s9 =>
  (takeGroup isDigitDot s9).bind fun (ng, s10) =>
  (stripLit ("|coverage=").toList s10).bind fun s11 =>
  (takeGroup isDigitDot s11).bind fun (cg, s12) =>
  (stripLit ("|hitRate=").toList s12).bind fun s13 =>
  (takeGroup isDigitDot s13).map fun (hg, _) =>
  { k := kg, precision := pg, «recall» := rg, map := mg,
    ndcg := ng, coverage := cg, hitRate := hg }

/-- Leftmost-match search of Python `re.search`: try the pattern at every
start position, earliest first. -/
def searchFrom {α : Type} (f : List Char → Option α) : List Char → Option α
  | [] => f []
  | c :: s =>
    match f (c :: s) with
    | some r => some r
    | none => searchFrom f s

/-- Numeric value of a digit string, Python `int`. -/
def digitsToNat (cs : List Char) : Nat :=
  cs.foldl (fun n c => 10 * n + (c.toNat - 48)) 0

/-- Python `float` applied to a string matched by `[\d.]+`: it succeeds
exactly when the string has at most one dot and at least one digit, and then
denotes `intpart.fracpart`, kept here in exact decimal form. -/
def pyFloatOfGroup (cs : List Char) : Option PyFloat :=
  if cs.countP (fun c => c == '.') ≤ 1 ∧ cs.any (fun c => c.isDigit) then
    let intPart := cs.takeWhile (fun c => !(c == '.'))
    let fracPart := (cs.dropWhile (fun c => !(c == '.'))).drop 1
    some { mantissa := Int.ofNat (digitsToNat (intPart ++ fracPart)),
           fracDigits := fracPart.length }
  else none

/-- Metric dictionary for one cutoff: a partial map over the six metric keys
the parser ever writes (the Python inner dict). -/
structure MetricEntry where
  precision : Option PyFloat
  «recall» : Option PyFloat
  map : Option PyFloat
  ndcg : Option PyFloat
  coverage : Option PyFloat
  hitRate : Option PyFloat
deriving DecidableEq

def emptyEntry : MetricEntry :=
  { precision := none, «recall» := none, map := none,
    ndcg := none, coverage := none, hitRate := none }

/-- The Python dict `extracted_metrics`, insertion-ordered, keyed by cutoff. -/
abbrev ExtractedMetrics := List (Nat × MetricEntry)

def emLookup : ExtractedMetrics → Nat → Option MetricEntry
  | [], _ => none
  | (k0, v) :: rest, k => if k0 = k then some v else emLookup rest k

/-- Python dict assignment: update in place when the key exists, append
otherwise. -/
def emSet : ExtractedMetrics → Nat → MetricEntry → ExtractedMetrics
  | [], k, v => [(k, v)]
  | (k0, v0) :: rest, k, v =>
    if k0 = k then (k, v) :: rest else (k0, v0) :: emSet rest k v

/-- Parse of the structured metric line (model_training_api.py
lines 643-663): `re.search` of the pattern, then `int` on the cutoff and
`float` on all six values; any conversion failure is swallowed and the line
contributes nothing. -/
def parseStructured (line : List Char) : Option (Nat × MetricEntry) :=
  (searchFrom matchStructuredAt line).bind fun raw =>
  (pyFloatOfGroup raw.precision).bind fun p =>
  (pyFloatOfGroup raw.«recall»).bind fun r =>
  (pyFloatOfGroup raw.map).bind fun m =>
  (pyFloatOfGroup raw.ndcg).bind fun n =>
  (pyFloatOfGroup raw.coverage).bind fun c =>
  (pyFloatOfGroup raw.hitRate).map fun h =>
  (digitsToNat raw.k,
    { precision := some p, «recall» := some r, map := some m,
      ndcg := some n, coverage := some c, hitRate := some h })

/-- Match the legacy pattern `NDCG@10\s*=\s*([\d.]+)` at the start of `s`
(model_training_api.py line 667). -/
def matchLegacyAt (s : List Char) : Option (List Char) :=
  (stripLit ("NDCG@10").toList s).bind fun s1 =>
  (stripLit ("=").toList (s1.dropWhile (fun c => c.isWhitespace))).bind fun s2 =>
  (takeGroup isDigitDot (s2.dropWhile (fun c => c.isWhitespace))).map fun (g, _) => g

/-- Parse of the legacy NDCG@10 line (model_training_api.py lines 667-676):
`re.search` of the pattern then `float`; a conversion failure contributes
nothing. -/
def parseLegacy (line : List Char) : Option PyFloat :=
  (searchFrom matchLegacyAt line).bind pyFloatOfGroup

/-- Structured-format step for one line (model_training_api.py
lines 643-663): a successful parse replaces the entry for its cutoff
wholesale. -/
def structuredStep (em : ExtractedMetrics) (line : List Char) : ExtractedMetrics :=
  match parseStructured line with
  | some (k, entry) => emSet em k entry
  | none => em

/-- Legacy-format step for one line (model_training_api.py lines 667-676):
a successful parse records the value as the ndcg metric of cutoff 10, but
only when no ndcg value is recorded there yet. -/
def legacyStep (em : ExtractedMetrics) (line : List Char) : ExtractedMetrics :=
  match parseLegacy line with
  | none => em
  | some v =>
    match emLookup em 10 with
    | none => emSet em 10 { emptyEntry with ndcg := some v }
    | some e =>
      match e.ndcg with
      | none => emSet em 10 { e with ndcg := some v }
      | some _ => em

/-- Metric extraction for one output line (model_training_api.py
lines 642-676): the structured pattern is tried first, then the legacy
pattern, both on the same accumulated dictionary. -/
def processLine (em : ExtractedMetrics) (line : List Char) : ExtractedMetrics :=
  legacyStep (structuredStep em line) line

/-- Concrete structured and legacy lines used by the parser witness. -/
def sampleStructuredLine : List Char :=
  ("METRIC|k=10|precision=0.5|recall=0.4|map=0.3|ndcg=0.6|coverage=0.9|hitRate=0.7").toList

def sampleLegacyLine : List Char := ("Validation NDCG@10 = 0.61").toList

def sampleStructuredEntry : MetricEntry :=
  { precision := some { mantissa := 5, fracDigits := 1 },
    «recall» := some { mantissa := 4, fracDigits := 1 },
    map := some { mantissa := 3, fracDigits := 1 },
    ndcg := some { mantissa := 6, fracDigits := 1 },
    coverage := some { mantissa := 9, fracDigits := 1 },
    hitRate := some { mantissa := 7, fracDigits := 1 } }

/-- Embedding of the `ModelVersion` table row (database.py lines 28-41),
restricted to the columns the publication step writes. -/
structure ModelVersionRow where
  id : Nat
  version_tag : String
  artifact_path : String
deriving DecidableEq

/-- Embedding of the `Metric` table row (database.py lines 44-55). -/
structure MetricRow where
  model_version_id : Nat
  metric_name : String
  metric_value : PyFloat
deriving DecidableEq

/-- Database commit actions performed by the finalisation step, in program
order.  A rollback (model_training_api.py line 792) discards the staged
metric rows, leaving the store unchanged. -/
inductive CommitEvent
  | commitVersion (v : ModelVersionRow)
  | commitMetrics (rows : List MetricRow)
  | rollbackMetrics
deriving DecidableEq

/-- Python `str.capitalize`: first character upper-cased, the rest
lower-cased — so `hitRate` becomes `Hitrate`. -/
def pyCapitalize (s : String) : String :=
  match s.data with
  | [] => ""
  | c :: cs => String.mk (c.toUpper :: cs.map Char.toLower)

/-- The fixed metric-type iteration order of the publication step
(model_training_api.py line 775). -/
def metricTypeNames : List String :=
  ["precision", "recall", "map", "ndcg", "coverage", "hitRate"]

/-- Lookup of a metric type in an entry, the Python
`metric_type in metrics` test plus access (model_training_api.py
lines 776-783). -/
def entryField (e : MetricEntry) (name : String) : Option PyFloat :=
  if name = "precision" then e.precision
  else if name = "recall" then e.«recall»
  else if name = "map" then e.map
  else if name = "ndcg" then e.ndcg
  else if name = "coverage" then e.coverage
  else if name = "hitRate" then e.hitRate
  else none

/-- Metric rows produced for one cutoff (model_training_api.py
lines 772-786): one row per metric type present, in the fixed order, named
`{MetricType}@{k}` via `str.capitalize`, attached to the new version. -/
def metricRowsForCutoff (vid : Nat) (k : Nat) (e : MetricEntry) : List MetricRow :=
  metricTypeNames.filterMap fun name =>
    (entryField e name).map fun v =>
      { model_version_id := vid,
        metric_name := pyCapitalize name ++ "@" ++ toString k,
        metric_value := v }

/-- All metric rows of the batch, cutoffs in dictionary insertion order
(model_training_api.py lines 772-786). -/
def buildMetricRows (vid : Nat) (em : ExtractedMetrics) : List MetricRow :=
  em.flatMap (fun p => metricRowsForCutoff vid p.1 p.2)

/-- Warning line built when the metric batch write fails
(model_training_api.py line 791). -/
def metricWriteWarning (err : String) : String :=
  "⚠️ Warning: Failed to save metrics to database: " ++ err

/-- Completion note appended after process exit (model_training_api.py
line 733; the `'='*60` separator lines around it are not modelled). -/
def completionNote (rc : Int) : String :=
  "Training process completed with return code: " ++ toString rc

/-- Failure note appended on a nonzero exit code (model_training_api.py
lines 802-803; the trailing advice line is folded into this note). -/
def failureNote (rc : Int) : String :=
  "❌ Model training failed with return code " ++ toString rc ++ "."

/-- Saved-count note appended after a successful metric batch commit
(model_training_api.py line 789). -/
def savedMetricsNote (n : Nat) : String :=
  "✓ Saved " ++ toString n ++ " metrics to database"

/-- Warning appended when no metrics were extracted (model_training_api.py
line 795). -/
def noMetricsWarning : String := "⚠️ Warning: No metrics extracted from training logs"

/-- Outcome of the post-exit finalisation as persisted by the final commit:
the run status, the end time and duration stamped on the run, the commit
actions in program order, the modelled log lines that reach the store, and
the modelled log lines that were appended to the session object but then
reverted by a `db.rollback()` before any commit could flush them.  The
purely narrative log lines of the success path (the success banner of
lines 742-745, the hyperparameter echo of line 761 and the version-saved
notes of lines 762-763, all committed on line 766) are not modelled. -/
structure FinalizeResult where
  status : String
  end_time : Option Int
  duration : Option String
  events : List CommitEvent
  persistedLog : List String
  discardedLog : List String
deriving DecidableEq

/-- Embedding of the post-exit finalisation of `run_training_task`
(model_training_api.py lines 729-803 plus the final commit on line 858),
reached when the read loop ended without cancellation.  Lines 732-737
append the completion note and stamp end time and duration on the run.  On
exit code 0 the status is set to success and one ModelVersion row (version
tag, path `models/als_model_{tag}`) is committed on line 766 together with
all those pending run changes, so they survive any later rollback.  When
metrics were extracted, the metric rows are then committed as a batch on
line 788 and the saved-count note reaches the store through the final
commit on line 858; but when the batch commit raises (`metricWriteFails`),
the warning appended to `run.logs` on line 791 is still uncommitted when
`db.rollback()` on line 792 reverts the session, so the warning never
reaches the store and the final commit has nothing left to flush — the
warning is recorded here as discarded, not persisted.  On a nonzero exit
code the run is marked failed, the failure note is appended, and status,
timestamps and notes all reach the store through the final commit; nothing
is published. -/
def finalizeRun (run0 : ModelRun) (now : Int) (return_code : Int)
    (version_tag : String) (vid : Nat) (em : ExtractedMetrics)
    (metricWriteFails : Bool) (err : String) : FinalizeResult :=
  if return_code = 0 then
    let version : ModelVersionRow :=
      { id := vid, version_tag := version_tag,
        artifact_path := "models/als_model_" ++ version_tag }
    if em.isEmpty then
      { status := "success"
        end_time := some now
        duration := calculate_duration run0.start_time (some now)
        events := [CommitEvent.commitVersion version]
        persistedLog := [completionNote return_code, noMetricsWarning]
        discardedLog := [] }
    else if metricWriteFails then
      { status := "success"
        end_time := some now
        duration := calculate_duration run0.start_time (some now)
        events := [CommitEvent.commitVersion version, CommitEvent.rollbackMetrics]
        persistedLog := [completionNote return_code]
        discardedLog := [metricWriteWarning err] }
    else
      let rows := buildMetricRows vid em
      { status := "success"
        end_time := some now
        duration := calculate_duration run0.start_time (some now)
        events := [CommitEvent.commitVersion version, CommitEvent.commitMetrics rows]
        persistedLog := [completionNote return_code, savedMetricsNote rows.length]
        discardedLog := [] }
  else
    { status := "failed"
      end_time := some now
      duration := calculate_duration run0.start_time (some now)
      events := []
      persistedLog := [completionNote return_code, failureNote return_code]
      discardedLog := [] }

/-- Version and metric store contents, for interpreting commit events. -/
structure DbState where
  versions : List ModelVersionRow
  metrics : List MetricRow
deriving DecidableEq

def applyEvent (db : DbState) : CommitEvent → DbState
  | CommitEvent.commitVersion v => { db with versions := db.versions ++ [v] }
  | CommitEvent.commitMetrics rows => { db with metrics := db.metrics ++ rows }
  | CommitEvent.rollbackMetrics => db

def applyEvents (db : DbState) (evs : List CommitEvent) : DbState :=
  evs.foldl applyEvent db

/-- Embedding of the runtime-failure handler of `run_training_task`
(model_training_api.py lines 804-812): status forced to failed unless the
run is already cancelled, end time and duration stamped, the error appended
to the log. -/
def handleSupervisionError (run : ModelRun) (now : Int) (err : String) : ModelRun :=
  { run with
      status := if run.status = "cancelled" then run.status else "failed"
      end_time := some now
      duration := calculate_duration run.start_time (some now)
      logs := some (run.logs.getD "" ++
        "\n❌ Error executing training script: " ++ err ++ "\n") }

/-- Embedding of the fatal-error handler of `run_training_task`
(model_training_api.py lines 860-871): same status rule, with the error and
traceback appended. -/
def handleFatalError (run : ModelRun) (now : Int) (err trace : String) : ModelRun :=
  { run with
      status := if run.status = "cancelled" then run.status else "failed"
      end_time := some now
      duration := calculate_duration run.start_time (some now)
      logs := some (run.logs.getD "" ++
        "\n❌ Fatal Error: " ++ err ++ "\n\nTraceback:\n" ++ trace ++ "\n") }

theorem countActive_preemptActive (now : Int) (db : List ModelRun) :
    countActive (preemptActive now db) = 0 := by
  unfold countActive
  rw [List.countP_eq_zero]
  intro x hx
  unfold preemptActive at hx
  rcases List.mem_map.mp hx with ⟨r, _, rfl⟩
  by_cases h : isActiveStatus r.status
  · rw [if_pos h]
    show ¬ isActiveStatus (cancelRun now r).status = true
    exact fun hc => by simp [cancelRun, isActiveStatus] at hc
  · rw [if_neg h]
    exact h

theorem calculate_duration_isSome (s e : Int) :
    (calculate_duration s (some e)).isSome := rfl

/-- Claim C1: after the trigger operation, at most one run is non-terminal:
the committed state produced by the pre-emption pass has zero queued/running
runs, the final state (new queued run inserted) has exactly one, and every
previously active run is cancelled with a non-null end time, a computed
duration, and the pre-emption notice appended to its log. -/
theorem trigger_single_active_run (db : List ModelRun) (now : Int)
    (uuid runId trig : String) (rank : Int) (regParam alpha : PyFloat) (maxIter : Int) :
    countActive (triggerStates db now uuid runId trig rank regParam alpha maxIter).1 = 0 ∧
    countActive (triggerStates db now uuid runId trig rank regParam alpha maxIter).2 = 1 ∧
    (∀ r ∈ db, isActiveStatus r.status →
      (cancelRun now r).status = "cancelled" ∧
      (cancelRun now r).end_time = some now ∧
      ((cancelRun now r).duration).isSome ∧
      (cancelRun now r).logs = some (r.logs.getD "" ++ preemptionNotice)) := by
  refine ⟨countActive_preemptActive now db, ?_, ?_⟩
  · show countActive (preemptActive now db ++
      [newRunRecord uuid runId trig now rank regParam alpha maxIter]) = 1
    unfold countActive
    rw [List.countP_append]
    have h0 := countActive_preemptActive now db
    unfold countActive at h0
    have h1 : List.countP (fun r => isActiveStatus r.status)
        [newRunRecord uuid runId trig now rank regParam alpha maxIter] = 1 := rfl
    rw [h0, h1]
  · intro r _ _
    exact ⟨rfl, rfl, calculate_duration_isSome r.start_time now, rfl⟩

/-- Witness for `trigger_single_active_run` at a concrete store holding one
running and one queued run. -/
theorem trigger_single_active_run_witness :
    countActive (triggerStates [sampleRunningRun, sampleQueuedRun] 60 "c"
      "manual__2025-01-01T00:01:00" "manual" 10 pyFloatOne pyFloatOne 10).1 = 0 ∧
    countActive (triggerStates [sampleRunningRun, sampleQueuedRun] 60 "c"
      "manual__2025-01-01T00:01:00" "manual" 10 pyFloatOne pyFloatOne 10).2 = 1 ∧
    sampleRunningRun ∈ [sampleRunningRun, sampleQueuedRun] ∧
    isActiveStatus sampleRunningRun.status ∧
    (cancelRun 60 sampleRunningRun).status = "cancelled" ∧
    (cancelRun 60 sampleRunningRun).end_time = some 60 := by
  have h := trigger_single_active_run [sampleRunningRun, sampleQueuedRun] 60 "c"
    "manual__2025-01-01T00:01:00" "manual" 10 pyFloatOne pyFloatOne 10
  have hm : sampleRunningRun ∈ [sampleRunningRun, sampleQueuedRun] :=
    List.mem_cons_self _ _
  have ha : isActiveStatus sampleRunningRun.status := by decide
  exact ⟨h.1, h.2.1, hm, ha, (h.2.2 sampleRunningRun hm ha).1,
    (h.2.2 sampleRunningRun hm ha).2.1⟩

theorem mem_sortRunsByStart {x : ModelRun} {c : SortChoice} {l : List ModelRun} :
    x ∈ sortRunsByStart c l ↔ x ∈ l := by
  cases c <;> exact List.mem_mergeSort

theorem sortRunsByStart_desc_sorted (runs : List ModelRun) :
    (sortRunsByStart SortChoice.desc runs).Pairwise
      (fun a b => b.start_time ≤ a.start_time) := by
  have h := @List.sorted_mergeSort ModelRun
    (fun a b : ModelRun => decide (b.start_time ≤ a.start_time))
    (fun a b c hab hbc => by
      simp only [decide_eq_true_eq] at *
      omega)
    (fun a b => by
      simp only [Bool.or_eq_true, decide_eq_true_eq]
      omega)
    runs
  exact h.imp (fun hab => by simpa using hab)

/-- Claim C10: any sort field other than "start_time" is silently ignored and
the result is ordered by start time descending regardless of the requested
order; for sort field "start_time" any order other than case-insensitive
"ASC" gives descending order; and no sort or order value is ever rejected
(whether the call errors does not depend on them). -/
theorem sort_field_and_order_handling :
    (∀ sort ord runs, sort ≠ "start_time" →
      applySorting sort ord runs = sortRunsByStart SortChoice.desc runs) ∧
    (∀ ord runs, pyUpper ord ≠ "ASC" →
      applySorting "start_time" ord runs = sortRunsByStart SortChoice.desc runs) ∧
    (∀ ord runs, pyUpper ord = "ASC" →
      applySorting "start_time" ord runs = sortRunsByStart SortChoice.asc runs) ∧
    (∀ runs, (sortRunsByStart SortChoice.desc runs).Pairwise
      (fun a b => b.start_time ≤ a.start_time)) ∧
    (∀ db status_q triggered_by_q page limit sort ord sort2 ord2,
      (get_all_model_runs db status_q triggered_by_q page limit sort ord).isOk =
      (get_all_model_runs db status_q triggered_by_q page limit sort2 ord2).isOk) := by
  refine ⟨?_, ?_, ?_, sortRunsByStart_desc_sorted, ?_⟩
  · intro sort ord runs h
    simp [applySorting, chooseSort, h]
  · intro ord runs h
    simp [applySorting, chooseSort, h]
  · intro ord runs h
    simp [applySorting, chooseSort, h]
  · intro db status_q triggered_by_q page limit sort ord sort2 ord2
    unfold get_all_model_runs
    rcases hv : validateAndFilter db status_q triggered_by_q with e | q <;> rfl

/-- Witness for `sort_field_and_order_handling` at concrete inputs. -/
theorem sort_field_and_order_handling_witness :
    ("status" ≠ "start_time" ∧
      applySorting "status" "ASC" [sampleRunningRun] =
        sortRunsByStart SortChoice.desc [sampleRunningRun]) ∧
    (pyUpper "asc" = "ASC" ∧
      applySorting "start_time" "asc" [sampleRunningRun] =
        sortRunsByStart SortChoice.asc [sampleRunningRun]) := by
  refine ⟨⟨by decide, ?_⟩, ⟨by decide, ?_⟩⟩
  · exact sort_field_and_order_handling.1 "status" "ASC" [sampleRunningRun] (by decide)
  · exact sort_field_and_order_handling.2.2.1 "asc" [sampleRunningRun] (by decide)

/-- Counterexample to claim C8 as stated: the status filter does not accept
all five run states.  Filtering by "cancelled" — a status the store does
contain, since pre-emption sets it — is rejected with a validation error
(the whitelist on model_training_api.py line 259 lists only four states). -/
theorem status_filter_rejects_cancelled :
    sampleCancelledRun.status = "cancelled" ∧
    get_all_model_runs [sampleCancelledRun] (some ("cancelled")) none 1 50
      "start_time" "DESC" = Except.error invalidStatusError :=
  ⟨rfl, rfl⟩

/-- Claim C8, amended: only four of the five states — success, failed,
running, queued — are accepted by the status filter, and each restricts the
result to runs of that status; "cancelled", like every other value outside
the four, is rejected synchronously with a VALIDATION_ERROR before any state
change. -/
theorem status_filter_amended :
    (∀ (db : List ModelRun) (page limit : Nat) (sort ord : String) (s : String),
      s ∈ statusWhitelist →
      ∃ res : List ModelRun × Nat,
        get_all_model_runs db (some s) none page limit sort ord = Except.ok res ∧
        ∀ r ∈ res.1, r.status = s) ∧
    (∀ (db : List ModelRun) (tq : Option String) (page limit : Nat)
        (sort ord : String) (s : String),
      s ∉ statusWhitelist →
      get_all_model_runs db (some s) tq page limit sort ord =
        Except.error invalidStatusError) := by
  constructor
  · intro db page limit sort ord s hs
    have h1 : validateAndFilter db (some s) none =
        Except.ok (db.filter (fun r => r.status == s)) := by
      unfold validateAndFilter
      simp only [filterByStatus, if_pos hs]
      rfl
    have h2 : get_all_model_runs db (some s) none page limit sort ord =
        Except.ok
          (((applySorting sort ord (db.filter (fun r => r.status == s))).drop
              ((page - 1) * limit)).take limit,
            (db.filter (fun r => r.status == s)).length) := by
      unfold get_all_model_runs
      rw [h1]
    refine ⟨_, h2, ?_⟩
    intro r hr
    have h3 : r ∈ applySorting sort ord (db.filter (fun r => r.status == s)) :=
      List.drop_subset _ _ (List.take_subset _ _ hr)
    have h4 : r ∈ db.filter (fun r => r.status == s) := by
      unfold applySorting at h3
      exact mem_sortRunsByStart.mp h3
    exact eq_of_beq (List.mem_filter.mp h4).2
  · intro db tq page limit sort ord s hs
    have h1 : filterByStatus db (some s) = Except.error invalidStatusError := by
      simp only [filterByStatus, if_neg hs]
    unfold get_all_model_runs validateAndFilter
    rw [h1]

/-- Witness for `status_filter_amended` on a concrete store. -/
theorem status_filter_amended_witness :
    "running" ∈ statusWhitelist ∧
    (∃ res : List ModelRun × Nat,
      get_all_model_runs [sampleRunningRun, sampleCancelledRun] (some ("running"))
        none 1 50 "start_time" "DESC" = Except.ok res ∧
      ∀ r ∈ res.1, r.status = "running") :=
  ⟨by decide,
    status_filter_amended.1 [sampleRunningRun, sampleCancelledRun] 1 50
      "start_time" "DESC" "running" (by decide)⟩

/-- Claim C3 fails on the code at two points, evaluated here at the failing
inputs.  First, a scheduled trigger whose request leaves all four fields
absent never consults the ScheduleConfig: Pydantic has already replaced the
absent fields by the request-model defaults (rank=10, regParam=0.01,
alpha=1.0, maxIter=10), so the `is not None` schedule tier never fires and a
schedule storing (50, 0.5, 40, 15) is ignored.  Second, an explicitly
supplied `regParam = 0.0` is replaced by 0.01, because the final tier tests
Python falsiness (`rank or 10` and friends), not null-ness, contradicting
the code comment "Fallback to defaults if still None". -/
theorem hyperparameter_resolution_failing_inputs :
    resolveHyperparameters
      (mkModelRunCreate
        { triggered_by := "scheduled", rank := PyField.absent,
          regParam := PyField.absent, alpha := PyField.absent,
          maxIter := PyField.absent })
      (some { rank := some 50, regParam := some { mantissa := 5, fracDigits := 1 },
              alpha := some { mantissa := 40, fracDigits := 0 }, maxIter := some 15 }) =
      (10, { mantissa := 1, fracDigits := 2 }, { mantissa := 1, fracDigits := 0 }, 10) ∧
    resolveHyperparameters
      (mkModelRunCreate
        { triggered_by := "manual", rank := PyField.absent,
          regParam := PyField.val { mantissa := 0, fracDigits := 1 },
          alpha := PyField.absent, maxIter := PyField.absent })
      none =
      (10, { mantissa := 1, fracDigits := 2 }, { mantissa := 1, fracDigits := 0 }, 10) := by
  constructor <;> decide

/-- Counterexample to claim C4 as stated: when the base alias and all 99
suffixed candidates are already present, the loop does not signal a
generation failure — it silently falls through with the last candidate, and
the run is inserted with the colliding alias `b_99`. -/
theorem run_id_collision_exhaustion :
    resolveRunId exhaustedStore "b" = suffixed "b" 99 ∧
    resolveRunId exhaustedStore "b" ∈ exhaustedStore := by
  constructor <;> decide

theorem collisionLoop_not_collides (existing : List String) (base : String)
    (counter fuel : Nat) (rid : String) :
    collisionLoop existing base counter fuel rid false = rid := by
  cases fuel <;> rfl

theorem collisionLoop_all_taken (existing : List String) (base : String) :
    ∀ (fuel counter : Nat) (rid : String),
      0 < fuel →
      (∀ n, counter ≤ n → n < counter + fuel → suffixed base n ∈ existing) →
      collisionLoop existing base counter fuel rid true =
        suffixed base (counter + fuel - 1) := by
  intro fuel
  induction fuel with
  | zero => intro counter rid h _; exact absurd h (by omega)
  | succ fuel ih =>
    intro counter rid _ hall
    have hmem : suffixed base counter ∈ existing :=
      hall counter (Nat.le_refl _) (by omega)
    have hstep : collisionLoop existing base counter (fuel + 1) rid true =
        collisionLoop existing base (counter + 1) fuel (suffixed base counter)
          (decide (suffixed base counter ∈ existing)) := rfl
    rw [hstep, decide_eq_true hmem]
    cases fuel with
    | zero =>
      have h0 : collisionLoop existing base (counter + 1) 0
          (suffixed base counter) true = suffixed base counter := rfl
      rw [h0]
      congr 1
    | succ f =>
      rw [ih (counter + 1) (suffixed base counter) (Nat.succ_pos f)
        (fun n h1 h2 => hall n (by omega) (by omega))]
      congr 1
      omega

theorem collisionLoop_first_free (existing : List String) (base : String) :
    ∀ (fuel counter m : Nat) (rid : String),
      counter ≤ m → m < counter + fuel →
      suffixed base m ∉ existing →
      (∀ n, counter ≤ n → n < m → suffixed base n ∈ existing) →
      collisionLoop existing base counter fuel rid true = suffixed base m := by
  intro fuel
  induction fuel with
  | zero => intro counter m rid h1 h2 _ _; exact absurd h2 (by omega)
  | succ fuel ih =>
    intro counter m rid h1 h2 hfree hall
    have hstep : collisionLoop existing base counter (fuel + 1) rid true =
        collisionLoop existing base (counter + 1) fuel (suffixed base counter)
          (decide (suffixed base counter ∈ existing)) := rfl
    rw [hstep]
    by_cases hm : m = counter
    · subst hm
      rw [decide_eq_false hfree]
      exact collisionLoop_not_collides existing base (m + 1) fuel (suffixed base m)
    · have hmem : suffixed base counter ∈ existing :=
        hall counter (Nat.le_refl _) (by omega)
      rw [decide_eq_true hmem]
      exact ih (counter + 1) m (suffixed base counter) (by omega) (by omega) hfree
        (fun n ha hb => hall n (by omega) hb)

/-- Claim C4, amended: the generated alias is
`{trigger_source}__{UTC timestamp}`; on collision the suffixes _1 … _99 are
tried in order and the first free candidate is used, so the stored alias is
unique whenever any of the 100 candidates is free; but when the base alias
and all 99 suffixed candidates are taken, no generation failure is signalled
— the loop silently falls through and the colliding alias `base_99` is used
for the insert. -/
theorem run_id_generation_amended :
    (∀ trig ts, generate_run_id trig ts = trig ++ "__" ++ ts) ∧
    (∀ (existing : List String) (base : String),
      base ∉ existing → resolveRunId existing base = base) ∧
    (∀ (existing : List String) (base : String),
      base ∈ existing →
      (∃ n, 1 ≤ n ∧ n ≤ 99 ∧ suffixed base n ∉ existing) →
      resolveRunId existing base ∉ existing) ∧
    (∀ (existing : List String) (base : String),
      base ∈ existing →
      (∀ n, 1 ≤ n → n ≤ 99 → suffixed base n ∈ existing) →
      resolveRunId existing base = suffixed base 99) := by
  refine ⟨fun trig ts => rfl, ?_, ?_, ?_⟩
  · intro existing base hb
    unfold resolveRunId
    rw [if_neg hb]
  · intro existing base hb hex
    have hex2 : ∃ k, suffixed base (k + 1) ∉ existing := by
      rcases hex with ⟨n, h1, _, h3⟩
      exact ⟨n - 1, by rwa [Nat.sub_add_cancel h1]⟩
    have hbound : Nat.find hex2 ≤ 98 := by
      rcases hex with ⟨n, h1, h2, h3⟩
      have : suffixed base ((n - 1) + 1) ∉ existing := by
        rwa [Nat.sub_add_cancel h1]
      have h4 := Nat.find_min' hex2 this
      omega
    have hres : resolveRunId existing base = suffixed base (Nat.find hex2 + 1) := by
      unfold resolveRunId
      rw [if_pos hb]
      exact collisionLoop_first_free existing base 99 1 (Nat.find hex2 + 1) base
        (by omega) (by omega) (Nat.find_spec hex2)
        (fun n ha hc => by
          have h5 := Nat.find_min hex2 (show n - 1 < Nat.find hex2 by omega)
          have h6 := not_not.mp h5
          rwa [Nat.sub_add_cancel ha] at h6)
    rw [hres]
    exact Nat.find_spec hex2
  · intro existing base hb hall
    unfold resolveRunId
    rw [if_pos hb]
    have h9 := collisionLoop_all_taken existing base 99 1 base (by omega)
      (fun n h1 h2 => hall n h1 (by omega))
    simpa using h9

/-- Witness for `run_id_generation_amended` at concrete inputs. -/
theorem run_id_generation_amended_witness :
    ("x" ∉ ([] : List String) ∧ resolveRunId [] "x" = "x") ∧
    ("y" ∈ ["y"] ∧ suffixed "y" 1 ∉ ["y"] ∧ resolveRunId ["y"] "y" ∉ ["y"]) :=
  ⟨⟨by decide, run_id_generation_amended.2.1 [] "x" (by decide)⟩,
    ⟨by decide, by decide,
      run_id_generation_amended.2.2.1 ["y"] "y" (by decide)
        ⟨1, by decide, by decide, by decide⟩⟩⟩

/-- Claim C9: the duration formatter renders largest-to-smallest non-zero
units among days, hours and minutes: 0 s gives "0m", 125 s gives "2m",
3725 s gives "1h 2m", 90000 s gives "1d 1h", and a null end time gives a
null duration. -/
theorem duration_formatting_cases :
    (∀ s : Int, calculate_duration s none = none) ∧
    calculate_duration 0 (some 0) = some ("0m") ∧
    calculate_duration 0 (some 125) = some ("2m") ∧
    calculate_duration 0 (some 3725) = some ("1h 2m") ∧
    calculate_duration 0 (some 90000) = some ("1d 1h") := by
  refine ⟨fun s => rfl, ?_, ?_, ?_, ?_⟩ <;> decide

theorem emLookup_emSet_self (em : ExtractedMetrics) (k : Nat) (v : MetricEntry) :
    emLookup (emSet em k v) k = some v := by
  induction em with
  | nil => simp [emSet, emLookup]
  | cons p rest ih =>
    obtain ⟨k0, v0⟩ := p
    unfold emSet
    by_cases h : k0 = k
    · rw [if_pos h]
      unfold emLookup
      rw [if_pos rfl]
    · rw [if_neg h]
      unfold emLookup
      rw [if_neg h]
      exact ih

theorem emLookup_emSet_ne (em : ExtractedMetrics) {k0 k : Nat} (v : MetricEntry)
    (h : k0 ≠ k) : emLookup (emSet em k0 v) k = emLookup em k := by
  induction em with
  | nil =>
    unfold emSet emLookup
    rw [if_neg h]
    rfl
  | cons p rest ih =>
    obtain ⟨k1, v1⟩ := p
    unfold emSet
    by_cases h1 : k1 = k0
    · rw [if_pos h1]
      unfold emLookup
      rw [if_neg h, if_neg (h1 ▸ h)]
    · rw [if_neg h1]
      unfold emLookup
      by_cases h2 : k1 = k
      · rw [if_pos h2, if_pos h2]
      · rw [if_neg h2, if_neg h2]
        exact ih

theorem parseStructured_ndcg_isSome {line : List Char} {k : Nat}
    {entry : MetricEntry} (h : parseStructured line = some (k, entry)) :
    entry.ndcg.isSome := by
  unfold parseStructured at h
  simp only [Option.bind_eq_some, Option.map_eq_some'] at h
  rcases h with ⟨raw, _, p, _, r, _, m, _, n, _, c, _, hfin⟩
  rcases hfin with ⟨hv, hpair⟩
  have := congrArg Prod.snd hpair.2
  simp only at this
  rw [← this]
  rfl

theorem structuredStep_insert {em : ExtractedMetrics} {line : List Char}
    {k : Nat} {entry : MetricEntry} (h : parseStructured line = some (k, entry)) :
    structuredStep em line = emSet em k entry := by
  unfold structuredStep
  rw [h]

theorem structuredStep_preserves {em : ExtractedMetrics} {line : List Char}
    {k : Nat} {entry : MetricEntry} (hk : emLookup em k = some entry)
    (hs : ∀ k0 e0, parseStructured line = some (k0, e0) → k0 ≠ k) :
    emLookup (structuredStep em line) k = some entry := by
  unfold structuredStep
  cases hps : parseStructured line with
  | none => exact hk
  | some p =>
    obtain ⟨k0, e0⟩ := p
    rw [emLookup_emSet_ne em e0 (hs k0 e0 hps)]
    exact hk

theorem legacyStep_preserves {em : ExtractedMetrics} {line : List Char}
    {k : Nat} {entry : MetricEntry} (hk : emLookup em k = some entry)
    (hnd : entry.ndcg.isSome) :
    emLookup (legacyStep em line) k = some entry := by
  unfold legacyStep
  cases hv : parseLegacy line with
  | none => exact hk
  | some v =>
    by_cases h10 : k = 10
    · subst h10
      rcases Option.isSome_iff_exists.mp hnd with ⟨n, hn⟩
      simp only [hk, hn]
    · cases hl : emLookup em 10 with
      | none =>
        simp only [hl]
        rw [emLookup_emSet_ne em _ (fun he => h10 he.symm)]
        exact hk
      | some e =>
        cases hn : e.ndcg with
        | none =>
          simp only [hl, hn]
          rw [emLookup_emSet_ne em _ (fun he => h10 he.symm)]
          exact hk
        | some w =>
          simp only [hl, hn]
          exact hk

theorem processLine_preserves {em : ExtractedMetrics} {line : List Char}
    {k : Nat} {entry : MetricEntry} (hk : emLookup em k = some entry)
    (hnd : entry.ndcg.isSome)
    (hs : ∀ k0 e0, parseStructured line = some (k0, e0) → k0 ≠ k) :
    emLookup (processLine em line) k = some entry :=
  legacyStep_preserves (structuredStep_preserves hk hs) hnd

theorem processLine_structured {em : ExtractedMetrics} {line : List Char}
    {k : Nat} {entry : MetricEntry} (h : parseStructured line = some (k, entry)) :
    emLookup (processLine em line) k = some entry := by
  unfold processLine
  rw [structuredStep_insert h]
  exact legacyStep_preserves (emLookup_emSet_self em k entry)
    (parseStructured_ndcg_isSome h)

theorem foldl_processLine_preserves {k : Nat} {entry : MetricEntry} :
    ∀ (suffix : List (List Char)) (em : ExtractedMetrics),
      emLookup em k = some entry → entry.ndcg.isSome →
      (∀ l ∈ suffix, ∀ k0 e0, parseStructured l = some (k0, e0) → k0 ≠ k) →
      emLookup (suffix.foldl processLine em) k = some entry := by
  intro suffix
  induction suffix with
  | nil => intro em hk _ _; exact hk
  | cons l rest ih =>
    intro em hk hnd hs
    rw [List.foldl_cons]
    exact ih (processLine em l)
      (processLine_preserves hk hnd (hs l (List.mem_cons_self _ _)))
      hnd
      (fun l2 hl2 => hs l2 (List.mem_cons_of_mem _ hl2))

/-- Claim C2: a line matching the structured format with six parseable float
values replaces the accumulated entry for its cutoff wholesale, and that
entry survives any later lines with no structured match for the same cutoff
(so the last structured line for a given cutoff wins); a line matching only
the legacy NDCG@10 format records its value as the ndcg metric of cutoff 10
exactly when no ndcg value is recorded there yet, and leaves the dictionary
unchanged when an entry with an ndcg value — in particular any structured
entry for cutoff 10 — is already present. -/
theorem stream_parser_metric_accumulation :
    (∀ (em : ExtractedMetrics) (line : List Char) (k : Nat) (entry : MetricEntry),
      parseStructured line = some (k, entry) →
      emLookup (processLine em line) k = some entry) ∧
    (∀ (em : ExtractedMetrics) (line : List Char) (suffix : List (List Char))
        (k : Nat) (entry : MetricEntry),
      parseStructured line = some (k, entry) →
      (∀ l ∈ suffix, ∀ k0 e0, parseStructured l = some (k0, e0) → k0 ≠ k) →
      emLookup (suffix.foldl processLine (processLine em line)) k = some entry) ∧
    (∀ (em : ExtractedMetrics) (line : List Char) (v : PyFloat),
      parseStructured line = none → parseLegacy line = some v →
      (emLookup em 10 = none →
        processLine em line = emSet em 10 { emptyEntry with ndcg := some v }) ∧
      (∀ e, emLookup em 10 = some e → e.ndcg = none →
        processLine em line = emSet em 10 { e with ndcg := some v }) ∧
      (∀ e, emLookup em 10 = some e → e.ndcg.isSome →
        processLine em line = em)) := by
  refine ⟨fun em line k entry h => processLine_structured h, ?_, ?_⟩
  · intro em line suffix k entry h hs
    exact foldl_processLine_preserves suffix (processLine em line)
      (processLine_structured h) (parseStructured_ndcg_isSome h) hs
  · intro em line v hns hv
    have hstep : processLine em line = legacyStep em line := by
      unfold processLine structuredStep
      rw [hns]
    refine ⟨?_, ?_, ?_⟩
    · intro hl
      rw [hstep]
      unfold legacyStep
      simp only [hv, hl]
    · intro e hl hn
      rw [hstep]
      unfold legacyStep
      simp only [hv, hl, hn]
    · intro e hl hn
      rcases Option.isSome_iff_exists.mp hn with ⟨w, hw⟩
      rw [hstep]
      unfold legacyStep
      simp only [hv, hl, hw]

/-- Witness for `stream_parser_metric_accumulation` on concrete lines. -/
theorem stream_parser_metric_accumulation_witness :
    (parseStructured sampleStructuredLine = some (10, sampleStructuredEntry) ∧
      emLookup (processLine [] sampleStructuredLine) 10 = some sampleStructuredEntry) ∧
    (parseStructured sampleLegacyLine = none ∧
      parseLegacy sampleLegacyLine = some { mantissa := 61, fracDigits := 2 } ∧
      emLookup ([] : ExtractedMetrics) 10 = none ∧
      processLine [] sampleLegacyLine =
        emSet [] 10 { emptyEntry with ndcg := some { mantissa := 61, fracDigits := 2 } }) :=
  ⟨⟨by decide,
     stream_parser_metric_accumulation.1 [] sampleStructuredLine 10
       sampleStructuredEntry (by decide)⟩,
   ⟨by decide, by decide, by decide,
     (stream_parser_metric_accumulation.2.2 [] sampleLegacyLine
       { mantissa := 61, fracDigits := 2 } (by decide) (by decide)).1 (by decide)⟩⟩

/-- Claim C5: after a zero exit code with structured entries for exactly the
cutoffs 10 and 20, the run is marked success; exactly one ModelVersion row
is committed, before any metric row; and exactly twelve metric rows — one
per metric type per cutoff, named `{MetricType}@{k}` with the type
capitalized — are attached to that version. -/
theorem success_publication (run0 : ModelRun) (now : Int) (tag : String)
    (vid : Nat) (rc : Int)
    (e10 e20 : MetricEntry) (p1 r1 m1 n1 c1 h1 p2 r2 m2 n2 c2 h2 : PyFloat)
    (hrc : rc = 0)
    (he10 : e10 = { precision := some p1, «recall» := some r1, map := some m1,
                    ndcg := some n1, coverage := some c1, hitRate := some h1 })
    (he20 : e20 = { precision := some p2, «recall» := some r2, map := some m2,
                    ndcg := some n2, coverage := some c2, hitRate := some h2 }) :
    (finalizeRun run0 now rc tag vid [(10, e10), (20, e20)] false "").status = "success" ∧
    (finalizeRun run0 now rc tag vid [(10, e10), (20, e20)] false "").events =
      [CommitEvent.commitVersion
          { id := vid, version_tag := tag, artifact_path := "models/als_model_" ++ tag },
        CommitEvent.commitMetrics (buildMetricRows vid [(10, e10), (20, e20)])] ∧
    (buildMetricRows vid [(10, e10), (20, e20)]).length = 12 ∧
    (buildMetricRows vid [(10, e10), (20, e20)]).map (fun row => row.metric_name) =
      ["Precision@10", "Recall@10", "Map@10", "Ndcg@10", "Coverage@10", "Hitrate@10",
       "Precision@20", "Recall@20", "Map@20", "Ndcg@20", "Coverage@20", "Hitrate@20"] ∧
    (buildMetricRows vid [(10, e10), (20, e20)]).map (fun row => row.model_version_id) =
      List.replicate 12 vid := by
  subst hrc he10 he20
  refine ⟨rfl, rfl, rfl, ?_, rfl⟩
  simp only [buildMetricRows, metricRowsForCutoff, metricTypeNames, entryField,
    List.flatMap_cons, List.flatMap_nil, List.filterMap, Option.map, List.map]
  decide

/-- Witness for `success_publication` at concrete values. -/
theorem success_publication_witness :
    (finalizeRun sampleRunningRun 60 0 "v1" 7
      [(10, sampleStructuredEntry), (20, sampleStructuredEntry)] false "").status
      = "success" ∧
    (buildMetricRows 7 [(10, sampleStructuredEntry), (20, sampleStructuredEntry)]).length
      = 12 := by
  have h := success_publication sampleRunningRun 60 "v1" 7 0
    sampleStructuredEntry sampleStructuredEntry
    { mantissa := 5, fracDigits := 1 } { mantissa := 4, fracDigits := 1 }
    { mantissa := 3, fracDigits := 1 } { mantissa := 6, fracDigits := 1 }
    { mantissa := 9, fracDigits := 1 } { mantissa := 7, fracDigits := 1 }
    { mantissa := 5, fracDigits := 1 } { mantissa := 4, fracDigits := 1 }
    { mantissa := 3, fracDigits := 1 } { mantissa := 6, fracDigits := 1 }
    { mantissa := 9, fracDigits := 1 } { mantissa := 7, fracDigits := 1 }
    rfl rfl rfl
  exact ⟨h.1, h.2.2.1⟩

/-- Claim C6 is right that the metric-batch failure is caught, that the
ModelVersion row committed before the metric write is retained, that no
metric row lands and that the run status remains success — but wrong that
the failure is logged on the run: the warning built on line 791 is appended
to the session object only, and the `db.rollback()` on line 792 reverts that
uncommitted change before anything can flush it, so the final commit on
line 858 writes nothing and the persisted run log never gains the warning.
Evaluated here at a concrete failing input (child exits 0 with one extracted
cutoff, the batch commit raises "disk full"). -/
theorem metric_write_failure_warning_lost :
    (finalizeRun sampleRunningRun 60 0 "v1" 7 [(10, sampleStructuredEntry)]
      true "disk full").status = "success" ∧
    (finalizeRun sampleRunningRun 60 0 "v1" 7 [(10, sampleStructuredEntry)]
      true "disk full").events =
      [CommitEvent.commitVersion
          { id := 7, version_tag := "v1", artifact_path := "models/als_model_v1" },
        CommitEvent.rollbackMetrics] ∧
    applyEvents { versions := [], metrics := [] }
      (finalizeRun sampleRunningRun 60 0 "v1" 7 [(10, sampleStructuredEntry)]
        true "disk full").events =
      { versions := [{ id := 7, version_tag := "v1",
                       artifact_path := "models/als_model_v1" }],
        metrics := [] } ∧
    (finalizeRun sampleRunningRun 60 0 "v1" 7 [(10, sampleStructuredEntry)]
      true "disk full").discardedLog = [metricWriteWarning "disk full"] ∧
    metricWriteWarning "disk full" ∉
      (finalizeRun sampleRunningRun 60 0 "v1" 7 [(10, sampleStructuredEntry)]
        true "disk full").persistedLog := by
  refine ⟨rfl, rfl, rfl, rfl, ?_⟩
  decide

/-- Claim C7: a nonzero exit code marks the run failed with end time and
duration stamped and the failure note — carrying the exit code — persisted
to its log, and a supervision exception is classified by the two exception
handlers, which stamp end time and duration and append the error to the log
— in every case unless the run is already cancelled, in which case both
handlers preserve the cancelled status and never overwrite it with a
failure classification. -/
theorem failure_never_overwrites_cancelled :
    (∀ (run0 : ModelRun) (now : Int) (rc : Int) (tag : String) (vid : Nat)
        (em : ExtractedMetrics) (f : Bool) (err : String),
      rc ≠ 0 →
      (finalizeRun run0 now rc tag vid em f err).status = "failed" ∧
      (finalizeRun run0 now rc tag vid em f err).end_time = some now ∧
      ((finalizeRun run0 now rc tag vid em f err).duration).isSome ∧
      (finalizeRun run0 now rc tag vid em f err).persistedLog =
        [completionNote rc, failureNote rc]) ∧
    (∀ (run : ModelRun) (now : Int) (err : String),
      run.status ≠ "cancelled" →
      (handleSupervisionError run now err).status = "failed") ∧
    (∀ (run : ModelRun) (now : Int) (err : String),
      run.status = "cancelled" →
      (handleSupervisionError run now err).status = "cancelled") ∧
    (∀ (run : ModelRun) (now : Int) (err trace : String),
      run.status ≠ "cancelled" → (handleFatalError run now err trace).status = "failed") ∧
    (∀ (run : ModelRun) (now : Int) (err trace : String),
      run.status = "cancelled" →
      (handleFatalError run now err trace).status = "cancelled") ∧
    (∀ (run : ModelRun) (now : Int) (err : String),
      (handleSupervisionError run now err).end_time = some now ∧
      ((handleSupervisionError run now err).duration).isSome ∧
      (handleSupervisionError run now err).logs = some (run.logs.getD "" ++
        "\n❌ Error executing training script: " ++ err ++ "\n")) ∧
    (∀ (run : ModelRun) (now : Int) (err trace : String),
      (handleFatalError run now err trace).end_time = some now ∧
      ((handleFatalError run now err trace).duration).isSome ∧
      (handleFatalError run now err trace).logs = some (run.logs.getD "" ++
        "\n❌ Fatal Error: " ++ err ++ "\n\nTraceback:\n" ++ trace ++ "\n")) := by
  refine ⟨?_, ?_, ?_, ?_, ?_, ?_, ?_⟩
  · intro run0 now rc tag vid em f err h
    unfold finalizeRun
    rw [if_neg h]
    exact ⟨rfl, rfl, calculate_duration_isSome run0.start_time now, rfl⟩
  · intro run now err h
    unfold handleSupervisionError
    simp only [if_neg h]
  · intro run now err h
    show (if run.status = "cancelled" then run.status else "failed") = "cancelled"
    rw [if_pos h]
    exact h
  · intro run now err trace h
    unfold handleFatalError
    simp only [if_neg h]
  · intro run now err trace h
    show (if run.status = "cancelled" then run.status else "failed") = "cancelled"
    rw [if_pos h]
    exact h
  · intro run now err
    exact ⟨rfl, calculate_duration_isSome run.start_time now, rfl⟩
  · intro run now err trace
    exact ⟨rfl, calculate_duration_isSome run.start_time now, rfl⟩

/-- Witness for `failure_never_overwrites_cancelled` at concrete runs. -/
theorem failure_never_overwrites_cancelled_witness :
    ((2 : Int) ≠ 0 ∧
      (finalizeRun sampleRunningRun 60 2 "v1" 7 [] false "").status = "failed" ∧
      (finalizeRun sampleRunningRun 60 2 "v1" 7 [] false "").end_time = some 60 ∧
      ((finalizeRun sampleRunningRun 60 2 "v1" 7 [] false "").duration).isSome ∧
      (finalizeRun sampleRunningRun 60 2 "v1" 7 [] false "").persistedLog =
        [completionNote 2, failureNote 2]) ∧
    (sampleRunningRun.status ≠ "cancelled" ∧
      (handleSupervisionError sampleRunningRun 60 "boom").status = "failed") ∧
    (sampleCancelledRun.status = "cancelled" ∧
      (handleSupervisionError sampleCancelledRun 60 "boom").status = "cancelled") :=
  ⟨⟨by decide,
     failure_never_overwrites_cancelled.1 sampleRunningRun 60 2 "v1" 7 [] false ""
       (by decide)⟩,
   ⟨by decide, failure_never_overwrites_cancelled.2.1 sampleRunningRun 60 "boom" (by decide)⟩,
   ⟨by decide, failure_never_overwrites_cancelled.2.2.1 sampleCancelledRun 60 "boom" (by decide)⟩⟩

end CSRec
